import Mathlib

/-!
Verification development for the `counterfeit` filesystem-backed mock HTTP
server.  We shallowly embed the two core source files:

* `counterfeit_core/src/default/default_file_picker.rs` — the round-robin
  file selector (`DefaultFilePicker::pick_file`, `file_matches`);
* `src/mapper.rs` — the response assembler (`MapperOutput`,
  `set_default_headers`) and the request orchestrator
  (`FileMapperService::call`) with its mutation chain.

Filesystem state is made explicit: a directory is the list of its regular
files' names in listing order, a cursor models the `MultiFileIndexMap`
entry for that directory, and file reads are a function from path to
`Except` of contents.
-/

namespace Counterfeit

/-! ## String helpers

Rust's `str::to_lowercase` and `str::starts_with`, modelled over the
character list of a `String` so that everything reduces in the kernel.
For the ASCII strings involved (method names, file names) `Char.toLower`
agrees with Rust's Unicode lowercasing. -/

/-- Rust `str::to_lowercase` (ASCII fragment). -/
def strToLower (s : String) : String :=
  String.mk (s.toList.map Char.toLower)

/-- Rust `str::starts_with`. -/
def strStartsWith (s pre : String) : Bool :=
  pre.toList.isPrefixOf s.toList

/-! ## `Path::file_stem`

Rust semantics for a plain file name: the stem is everything before the
final `.`, unless there is no `.` or the only role of the final `.` is as
leading character (hidden files like `.json` have no extension).  A path
with no file name yields `None`; for our file-name strings that is the
empty string. -/

/-- Index of the last `.` in a character list, if any. -/
def lastDotIdx (cs : List Char) : Option Nat :=
  ((List.range cs.length).filter fun i => cs.getD i ' ' == '.').getLast?

/-- Rust `Path::file_stem` composed with `OsStr::to_str`, on a file name.
`none` models Rust's `None` (no file name). -/
def fileStem (name : String) : Option String :=
  let cs := name.toList
  if cs.isEmpty then none
  else
    match lastDotIdx cs with
    | some i => if i = 0 then some name else some (String.mk (cs.take i))
    | none => some name

/-! ## `file_matches` (default_file_picker.rs, lines 67–76)

```rust
fn file_matches(file_path: &PathBuf, method: &str) -> bool {
    let method_str = method.to_lowercase();
    match file_path.file_stem().and_then(|stem| stem.to_str()) {
        Some(stem) => {
            stem == method_str || stem.to_lowercase().starts_with(&format!("{}_", method_str))
        }
        None => false,
    }
}
```
Note that the equality branch compares the raw stem against the
lowercased method, while only the prefix branch lowercases the stem. -/

/-- Embedding of `file_matches`. -/
def file_matches (filePath : String) (method : String) : Bool :=
  let method_str := strToLower method
  match fileStem filePath with
  | some stem =>
      stem == method_str || strStartsWith (strToLower stem) (method_str ++ "_")
  | none => false

/-! ## Errors

`std::io::Error` as used by the picker and the mapper: an `ErrorKind`
together with the human-readable message that `format!("{}", error)`
renders. -/

/-- The `io::ErrorKind`s the code distinguishes. -/
inductive ErrorKind where
  | notFound
  | other
deriving DecidableEq

/-- An `std::io::Error` value. -/
structure IoError where
  kind : ErrorKind
  msg : String
deriving DecidableEq

/-! ## `DefaultFilePicker::pick_file` (default_file_picker.rs, lines 24–64)

The picker's observable state for one fixed directory: the directory's
regular files in filesystem listing order, and the `MultiFileIndexMap`
entry for that directory (`none` models an absent key).  `pick_file` only
ever reads this one directory and touches this one map entry, so this
state captures everything the call can observe or mutate. -/

/-- One directory's slice of the world: listing plus cursor entry. -/
structure DirState where
  files : List String
  cursor : Option Nat
deriving DecidableEq

/-- Configuration bit of `DefaultFilePicker`. -/
structure PickerConfig where
  create_missing : Bool
deriving DecidableEq

/-- The `available_files` vector: listing order filtered by
`file_matches` (lines 25–30; the `is_file` filter is reflected by
`files` holding only regular files). -/
def availableFiles (files : List String) (method : String) : List String :=
  files.filter fun p => file_matches p method

/-- Embedding of `DefaultFilePicker::pick_file`.  Returns the `Result`
and the updated directory state.

* empty candidates + `create_missing`: create `"<method lowercase>.json"`
  (the listing gains that file), return its path (lines 33–42);
* empty candidates otherwise: `NotFound` error `"No files available"`,
  nothing mutated (lines 43–48);
* non-empty: `or_insert(0)` the cursor, clamp to `0` when it is `≥` the
  candidate count, take the `nth` candidate, increment the stored cursor
  on success (lines 49–62).  On the (dead) `None` arm of `nth` the map
  retains the clamped value written before the lookup. -/
def pick_file (cfg : PickerConfig) (st : DirState) (method : String) :
    Except IoError String × DirState :=
  let available_files := availableFiles st.files method
  if available_files.isEmpty then
    if cfg.create_missing then
      let file_name := strToLower method ++ ".json"
      (Except.ok file_name, { st with files := st.files ++ [file_name] })
    else
      (Except.error ⟨ErrorKind.notFound, "No files available"⟩, st)
  else
    let index := if available_files.length ≤ st.cursor.getD 0 then 0 else st.cursor.getD 0
    match available_files.get? index with
    | some file => (Except.ok file, { st with cursor := some (index + 1) })
    | none =>
        (Except.error ⟨ErrorKind.other, "Could not read file"⟩, { st with cursor := some index })

/-- `n` serialized calls of `pick_file`, collecting results in order. -/
def pick_file_seq (cfg : PickerConfig) (method : String) :
    Nat → DirState → List (Except IoError String) × DirState
  | 0, st => ([], st)
  | n + 1, st =>
      let r := pick_file cfg st method
      let rest := pick_file_seq cfg method n r.2
      (r.1 :: rest.1, rest.2)

/-! ## HTTP responses (mapper.rs)

A `hyper::Response<Body>` as the mapper observes it: status code, header
map, body string.  `Response::new(body)` starts at status 200 with an
empty header map; `HeaderMap::insert` replaces an existing entry for the
name or appends a new one. -/

/-- A transport response. -/
structure HttpResponse where
  status : Nat
  headers : List (String × String)
  body : String
deriving DecidableEq

/-- `hyper::HeaderMap::insert`: replace the value stored under `k`, or
append the pair when the name is absent. -/
def headerInsert (hs : List (String × String)) (k v : String) : List (String × String) :=
  if hs.any (fun p => p.1 == k) then
    hs.map fun p => if p.1 == k then (k, v) else p
  else
    hs ++ [(k, v)]

/-- `Response::new(body)`: hyper's default parts, status `200 OK`, no
headers. -/
def Response.new (body : String) : HttpResponse :=
  { status := 200, headers := [], body := body }

/-- Embedding of `set_default_headers` (mapper.rs, lines 218–233): insert
the three wildcard CORS headers. -/
def set_default_headers (r : HttpResponse) : HttpResponse :=
  let hs := headerInsert r.headers "access-control-allow-origin" "*"
  let hs := headerInsert hs "access-control-allow-methods" "*"
  let hs := headerInsert hs "access-control-allow-headers" "*"
  { r with headers := hs }

/-- Embedding of `MapperOutput::response_from_error` (mapper.rs, lines
172–180): body is the error's display string, status 404 for `NotFound`
and 500 otherwise, then the default headers. -/
def response_from_error (e : IoError) : HttpResponse :=
  let r := Response.new e.msg
  let r := { r with status := match e.kind with
                              | ErrorKind.notFound => 404
                              | _ => 500 }
  set_default_headers r

/-- A filesystem read oracle: `fs::read_to_string` as a function from
path to contents or I/O error. -/
def FsReader : Type := String → Except IoError String

/-- Embedding of `MapperOutput::response_from_file` (mapper.rs, lines
160–170): on a successful read, a 200 response whose body is the file
contents with the default headers; on a failed read, fall through to
`response_from_error` with the read error. -/
def response_from_file (fs : FsReader) (file_path : String) : HttpResponse :=
  match fs file_path with
  | Except.ok contents =>
      let response := Response.new contents
      let response := { response with status := 200 }
      set_default_headers response
  | Except.error e => response_from_error e

/-! ## `MapperOutput` and the orchestrator (mapper.rs, lines 69–158)

The request carries the method and the URI path; the `MapperResult` is
the file picker's verdict.  A mutation (`ResponseMutation`) takes the
output and either returns the (possibly modified) output or fails; the
Rust trait mutates in place and returns `Result<(), Error>`, which is the
same observable behaviour. -/

/-- The request data the mapping core consumes. -/
structure RequestData where
  method : String
  path : String
deriving DecidableEq

/-- `MapperResult = Result<PathBuf, io::Error>`. -/
def MapperResult : Type := Except IoError String

/-- The per-request aggregate `MapperOutput`. -/
structure MapperOutput where
  request : RequestData
  response : HttpResponse
  result : MapperResult

/-- Embedding of `MapperOutput::new` (mapper.rs, lines 147–158): the
response is synthesized from the result at construction time. -/
def MapperOutput.new (fs : FsReader) (request : RequestData) (result : MapperResult) :
    MapperOutput :=
  let response := match result with
                  | Except.ok path => response_from_file fs path
                  | Except.error e => response_from_error e
  { request := request, response := response, result := result }

/-- A `ResponseMutation`: `apply_mutation(&mut MapperOutput) -> Result` as
a state transformer that either yields the updated output or an error. -/
def Mutation : Type := MapperOutput → Except IoError MapperOutput

/-- The mutation loop of `FileMapperService::call` (mapper.rs, lines
92–96): apply each mutation in registration order, returning the first
failure and skipping the rest. -/
def applyMutations : List Mutation → MapperOutput → Except IoError MapperOutput
  | [], out => Except.ok out
  | m :: rest, out =>
      match m out with
      | Except.ok out' => applyMutations rest out'
      | Except.error e => Except.error e

/-- The collaborators and configuration of a `FileMapperService`:
directory picker, file picker (abstract, as the orchestrator sees them),
registered mutations and the read oracle used by `MapperOutput::new`. -/
structure FileMapperService where
  pick_directory : RequestData → Except IoError String
  picker_pick_file : String → RequestData → Except IoError String
  mutations : List Mutation
  fs : FsReader

/-- The outcome of one `Service::call`: either a transport-level failure
(`future::err`) carrying the error, or a response handed to the
transport (`future::ok`). -/
def ServiceOutcome : Type := Except IoError HttpResponse

/-- Embedding of `FileMapperService::call` (mapper.rs, lines 82–106):
resolve the directory (failure short-circuits to `future::err`), pick a
file, build the `MapperOutput`, run the mutation chain (failure yields
`future::err`), otherwise return the output's response. -/
def FileMapperService.call (svc : FileMapperService) (request : RequestData) :
    ServiceOutcome :=
  match svc.pick_directory request with
  | Except.ok directory =>
      let file := svc.picker_pick_file directory request
      let output := MapperOutput.new svc.fs request file
      match applyMutations svc.mutations output with
      | Except.ok output' => Except.ok output'.response
      | Except.error e => Except.error e
  | Except.error e => Except.error e

/-! ## The matching rule as the specification words it

For the refinement comparison of claim C3 only: the spec's sentence
"whose file-stem, case-insensitively, equals the request method or starts
with `<method>_`" lowercases both the stem and the method in *both*
branches. -/

/-- The spec's wording of the candidate-matching rule (fully
case-insensitive), to be compared against the source's `file_matches`. -/
def file_matches_spec_ci (filePath : String) (method : String) : Bool :=
  let method_str := strToLower method
  match fileStem filePath with
  | some stem =>
      strToLower stem == method_str ||
        strStartsWith (strToLower stem) (method_str ++ "_")
  | none => false

/-- The header list every freshly assembled response ends up with. -/
def corsHeaders : List (String × String) :=
  [("access-control-allow-origin", "*"), ("access-control-allow-methods", "*"),
   ("access-control-allow-headers", "*")]

/-! ## Concrete instances used to exercise the theorems -/

/-- A small filesystem: one readable file, everything else missing. -/
def fsStub : FsReader := fun p =>
  if p == "data.json" then Except.ok "file contents"
  else Except.error ⟨ErrorKind.notFound, "No such file"⟩

/-- A concrete request. -/
def reqStub : RequestData := ⟨"GET", "/widgets"⟩

/-- A mutation that always fails. -/
def mutationFail : Mutation := fun _ => Except.error ⟨ErrorKind.other, "mutation failed"⟩

/-- A mutation that rewrites the response status to 201. -/
def mutationSetCreated : Mutation := fun out =>
  Except.ok { out with response := { out.response with status := 201 } }

/-- A service whose directory resolver always fails. -/
def svcDirFail : FileMapperService :=
  { pick_directory := fun _ => Except.error ⟨ErrorKind.notFound, "no directory"⟩
    picker_pick_file := fun _ _ => Except.ok "get.json"
    mutations := []
    fs := fsStub }

/-- A service whose file picker always fails. -/
def svcPickFail : FileMapperService :=
  { pick_directory := fun _ => Except.ok "responses/widgets"
    picker_pick_file := fun _ _ => Except.error ⟨ErrorKind.notFound, "No files available"⟩
    mutations := []
    fs := fsStub }

/-- A service that picks a file whose read fails. -/
def svcReadFail : FileMapperService :=
  { pick_directory := fun _ => Except.ok "responses/widgets"
    picker_pick_file := fun _ _ => Except.ok "missing.json"
    mutations := []
    fs := fsStub }

/-- A service whose first mutation fails before a second one that would
rewrite the status. -/
def svcMutFail : FileMapperService :=
  { pick_directory := fun _ => Except.ok "responses/widgets"
    picker_pick_file := fun _ _ => Except.ok "data.json"
    mutations := [mutationFail, mutationSetCreated]
    fs := fsStub }

/-! ## Sanity checks -/

example : fileStem "GET.json" = some "GET" := by decide
example : fileStem "get_anything.json" = some "get_anything" := by decide
example : fileStem ".json" = some ".json" := by decide
example : file_matches "get.json" "GET" = true := by decide
example : file_matches "GET.json" "get" = false := by decide
example : file_matches "get_anything.json" "GET" = true := by decide

example :
    pick_file ⟨false⟩ ⟨["get.json", "get_b.json", "post.json"], none⟩ "GET"
      = (Except.ok "get.json", ⟨["get.json", "get_b.json", "post.json"], some 1⟩) := by
  rfl

example :
    (pick_file_seq ⟨false⟩ "get" 3 ⟨["get.json", "get_b.json", "post.json"], none⟩).1
      = [Except.ok "get.json", Except.ok "get_b.json", Except.ok "get.json"] := by
  rfl

example :
    pick_file ⟨true⟩ ⟨["post.json"], none⟩ "GET"
      = (Except.ok "get.json", ⟨["post.json", "get.json"], none⟩) := by
  rfl

example :
    pick_file ⟨false⟩ ⟨["post.json"], some 5⟩ "GET"
      = (Except.error ⟨ErrorKind.notFound, "No files available"⟩, ⟨["post.json"], some 5⟩) := by
  rfl

/-! ## Picker lemmas -/

/-- In the non-empty branch with an in-range cursor `k`, `pick_file`
returns candidate `k` and stores `k + 1`. -/
theorem pick_file_step (cfg : PickerConfig) (st : DirState) (method : String)
    (av : List String) (hav : availableFiles st.files method = av)
    (k : Nat) (hc : st.cursor.getD 0 = k) (hk : k < av.length) :
    pick_file cfg st method =
      (Except.ok (av.get ⟨k, hk⟩), { st with cursor := some (k + 1) }) := by
  have h0 : av ≠ [] := by
    intro h
    subst h
    simp at hk
  have hne : av.isEmpty = false := by
    simp [List.isEmpty_iff, h0]
  have hlt : ¬ av.length ≤ k := Nat.not_le.mpr hk
  simp [pick_file, hav, hne, hc, hlt, List.getElem?_eq_getElem hk]

/-- In the non-empty branch with a stale cursor (`k ≥` candidate count),
`pick_file` clamps to `0`, returns the first candidate and stores `1`. -/
theorem pick_file_clamp_step (cfg : PickerConfig) (st : DirState) (method : String)
    (av : List String) (hav : availableFiles st.files method = av)
    (h0 : av ≠ []) (hk : av.length ≤ st.cursor.getD 0) :
    pick_file cfg st method =
      (Except.ok (av.get ⟨0, List.length_pos.mpr h0⟩), { st with cursor := some 1 }) := by
  have hne : av.isEmpty = false := by
    simp [List.isEmpty_iff, h0]
  have hlt : 0 < av.length := List.length_pos.mpr h0
  simp [pick_file, hav, hne, hk, List.getElem?_eq_getElem hlt]

/-- Running `m` serialized calls starting from cursor `k`, with
`k + m` within the candidate count, yields candidates `k, k+1, …` in
listing order, leaves the listing unchanged, and leaves the cursor at
`k + m`. -/
theorem pick_file_seq_run (cfg : PickerConfig) (method : String) (av : List String)
    (m : Nat) : ∀ (st : DirState) (k : Nat),
    availableFiles st.files method = av → st.cursor.getD 0 = k → k + m ≤ av.length →
    (pick_file_seq cfg method m st).1 = ((av.drop k).take m).map Except.ok ∧
    (pick_file_seq cfg method m st).2.files = st.files ∧
    (pick_file_seq cfg method m st).2.cursor.getD 0 = k + m := by
  induction m with
  | zero =>
      intro st k hav hc _
      simp [pick_file_seq, hc]
  | succ n ih =>
      intro st k hav hc hle
      have hk : k < av.length := by omega
      have hstep := pick_file_step cfg st method av hav k hc hk
      have hrest := ih { st with cursor := some (k + 1) } (k + 1) hav rfl (by omega)
      have hdrop : av.drop k = av.get ⟨k, hk⟩ :: av.drop (k + 1) :=
        List.drop_eq_getElem_cons hk
      simp only [pick_file_seq, hstep]
      refine ⟨?_, hrest.2.1, ?_⟩
      · rw [hrest.1, hdrop, List.take_succ_cons, List.map_cons]
      · have h2 := hrest.2.2
        omega

/-! ## Claim theorems: the file selector -/

/-- C1: on a directory whose candidate list for `method` is the nonempty
`av`, starting from a fresh cursor entry (absent or zero), `av.length`
serialized `pick_file` calls return exactly the candidates in filesystem
listing order — each one once, collectively the full set — and the
`(N+1)`-th call restarts the cycle at the first candidate. -/
theorem round_robin_coverage (cfg : PickerConfig) (st : DirState) (method : String)
    (av : List String) (hav : availableFiles st.files method = av) (hne : av ≠ [])
    (hc : st.cursor.getD 0 = 0) :
    (pick_file_seq cfg method av.length st).1 = av.map Except.ok ∧
    (pick_file cfg (pick_file_seq cfg method av.length st).2 method).1
      = Except.ok (av.get ⟨0, List.length_pos.mpr hne⟩) := by
  obtain ⟨h1, h2, h3⟩ := pick_file_seq_run cfg method av av.length st 0 hav hc (by omega)
  refine ⟨by simpa using h1, ?_⟩
  have hav' : availableFiles (pick_file_seq cfg method av.length st).2.files method = av := by
    rw [h2, hav]
  have hclamp := pick_file_clamp_step cfg _ method av hav' hne (by omega)
  rw [hclamp]

/-- Witness for C1 on a three-file directory with two `get` candidates. -/
theorem round_robin_coverage_witness :
    (pick_file_seq ⟨false⟩ "get" 2 ⟨["get.json", "get_b.json", "post.json"], none⟩).1
      = [Except.ok "get.json", Except.ok "get_b.json"] ∧
    (pick_file ⟨false⟩
        (pick_file_seq ⟨false⟩ "get" 2 ⟨["get.json", "get_b.json", "post.json"], none⟩).2
        "get").1
      = Except.ok "get.json" :=
  round_robin_coverage ⟨false⟩ ⟨["get.json", "get_b.json", "post.json"], none⟩ "get"
    ["get.json", "get_b.json"] (by decide) (by decide) (by decide)

/-- C4: with a nonempty candidate list, a stored cursor `≥` the candidate
count is reset to zero before selection (so a stale cursor never causes
an error), the selected index is the now-valid cursor, and the stored
cursor is incremented by one. -/
theorem cursor_clamp_invariant (cfg : PickerConfig) (st : DirState) (method : String)
    (av : List String) (hav : availableFiles st.files method = av) (hne : av ≠ []) :
    (av.length ≤ st.cursor.getD 0 →
        pick_file cfg st method =
          (Except.ok (av.get ⟨0, List.length_pos.mpr hne⟩), { st with cursor := some 1 })) ∧
    (∀ hfresh : st.cursor.getD 0 < av.length,
        pick_file cfg st method =
          (Except.ok (av.get ⟨st.cursor.getD 0, hfresh⟩),
           { st with cursor := some (st.cursor.getD 0 + 1) })) := by
  constructor
  · intro hstale
    exact pick_file_clamp_step cfg st method av hav hne hstale
  · intro hfresh
    exact pick_file_step cfg st method av hav _ rfl hfresh

/-- Witness for C4: a cursor of 7 over a single candidate is clamped. -/
theorem cursor_clamp_invariant_witness :
    pick_file ⟨false⟩ ⟨["get.json"], some 7⟩ "get"
      = (Except.ok "get.json", ⟨["get.json"], some 1⟩) :=
  (cursor_clamp_invariant ⟨false⟩ ⟨["get.json"], some 7⟩ "get" ["get.json"]
      (by decide) (by decide)).1 (by decide)

/-- C10: with a nonempty candidate list the fallback
`"Could not read file"` branch is unreachable — the call returns `Ok`
with one of the candidates, never an error. -/
theorem no_fallback_error (cfg : PickerConfig) (st : DirState) (method : String)
    (hne : availableFiles st.files method ≠ []) :
    (pick_file cfg st method).1 ∈ (availableFiles st.files method).map Except.ok ∧
    ∀ e : IoError, (pick_file cfg st method).1 ≠ Except.error e := by
  rcases Nat.lt_or_ge (st.cursor.getD 0) (availableFiles st.files method).length with
    hfresh | hstale
  · have h := pick_file_step cfg st method _ rfl _ rfl hfresh
    rw [h]
    refine ⟨List.mem_map_of_mem Except.ok (List.get_mem _ _ _), ?_⟩
    intro e
    simp
  · have h := pick_file_clamp_step cfg st method _ rfl hne hstale
    rw [h]
    refine ⟨List.mem_map_of_mem Except.ok (List.get_mem _ _ _), ?_⟩
    intro e
    simp

/-- Witness for C10 at a one-candidate directory. -/
theorem no_fallback_error_witness :
    (pick_file ⟨false⟩ ⟨["get.json"], none⟩ "get").1
        ∈ (availableFiles ["get.json"] "get").map Except.ok ∧
    (pick_file ⟨false⟩ ⟨["get.json"], none⟩ "get").1
        ≠ Except.error ⟨ErrorKind.other, "Could not read file"⟩ :=
  ⟨(no_fallback_error ⟨false⟩ ⟨["get.json"], none⟩ "get" (by decide)).1,
   (no_fallback_error ⟨false⟩ ⟨["get.json"], none⟩ "get" (by decide)).2
     ⟨ErrorKind.other, "Could not read file"⟩⟩

/-- C5: with zero candidates and create-missing enabled, `pick_file`
creates exactly one new file, named `<method lowercase>.json`, inside
the directory, returns its path, and leaves the cursor entry untouched;
the candidate set computed earlier in the call (empty by hypothesis) is
not consulted again. -/
theorem create_missing_file (cfg : PickerConfig) (st : DirState) (method : String)
    (hempty : availableFiles st.files method = [])
    (hcm : cfg.create_missing = true) :
    pick_file cfg st method =
      (Except.ok (strToLower method ++ ".json"),
       { st with files := st.files ++ [strToLower method ++ ".json"] }) := by
  simp [pick_file, hempty, hcm]

/-- Witness for C5: a `GET` request against a directory holding only
`post.json`. -/
theorem create_missing_file_witness :
    pick_file ⟨true⟩ ⟨["post.json"], none⟩ "GET"
      = (Except.ok "get.json", ⟨["post.json", "get.json"], none⟩) :=
  create_missing_file ⟨true⟩ ⟨["post.json"], none⟩ "GET" (by decide) rfl

/-- C6: with zero candidates and create-missing disabled, `pick_file`
fails with the `NotFound` error `"No files available"` and mutates
nothing: neither the directory listing nor the cursor entry changes. -/
theorem not_found_no_mutation (cfg : PickerConfig) (st : DirState) (method : String)
    (hempty : availableFiles st.files method = [])
    (hcm : cfg.create_missing = false) :
    pick_file cfg st method
      = (Except.error ⟨ErrorKind.notFound, "No files available"⟩, st) := by
  simp [pick_file, hempty, hcm]

/-- Witness for C6. -/
theorem not_found_no_mutation_witness :
    pick_file ⟨false⟩ ⟨["post.json"], some 3⟩ "GET"
      = (Except.error ⟨ErrorKind.notFound, "No files available"⟩, ⟨["post.json"], some 3⟩) :=
  not_found_no_mutation ⟨false⟩ ⟨["post.json"], some 3⟩ "GET" (by decide) rfl

/-! ## Claim theorems: candidate matching (C3) -/

/-- Counterexample for C3: under the spec's fully case-insensitive rule
`GET.json` would match method `get`, but the source's `file_matches`
rejects it (for method `get` and for method `GET` alike), because the
equality branch compares the raw stem `"GET"` against the lowercased
method. -/
theorem method_matching_counterexample :
    file_matches_spec_ci "GET.json" "get" = true ∧
    file_matches_spec_ci "GET.json" "GET" = true ∧
    file_matches "GET.json" "get" = false ∧
    file_matches "GET.json" "GET" = false := by
  decide

/-- C3 (amended): matching lowercases the method; a file is a candidate
iff its stem equals the lowercased method exactly (the stem is *not*
lowercased in this branch) or its lowercased stem starts with the
lowercased method followed by an underscore.  Hence `get.json` and
`get_anything.json` match methods `get` and `GET`, while `GET.json`
matches neither. -/
theorem method_matching_amended :
    (∀ (name m stem : String), fileStem name = some stem →
        (file_matches name m = true ↔
          stem = strToLower m ∨
            strStartsWith (strToLower stem) (strToLower m ++ "_") = true)) ∧
    file_matches "get.json" "get" = true ∧
    file_matches "get.json" "GET" = true ∧
    file_matches "get_anything.json" "get" = true ∧
    file_matches "get_anything.json" "GET" = true ∧
    file_matches "GET.json" "get" = false ∧
    file_matches "GET.json" "GET" = false := by
  refine ⟨?_, by decide, by decide, by decide, by decide, by decide, by decide⟩
  intro name m stem hstem
  simp [file_matches, hstem]

/-- Witness for C3 (amended), instantiating the characterization at
`get.json` and method `GET`. -/
theorem method_matching_amended_witness :
    file_matches "get.json" "GET" = true ↔
      ("get" : String) = strToLower "GET" ∨
        strStartsWith (strToLower "get") (strToLower "GET" ++ "_") = true :=
  method_matching_amended.1 "get.json" "GET" "get" (by decide)

/-! ## Claim theorems: the response assembler -/

/-- Counterexample for C2: serving a file with extension `.json` yields a
200 response that does *not* carry `Content-Type: application/json` —
neither `set_default_headers` nor `response_from_file` ever sets a
content type. -/
theorem json_content_type_counterexample :
    (response_from_file fsStub "data.json").status = 200 ∧
    ("content-type", "application/json") ∉ (response_from_file fsStub "data.json").headers := by
  decide

/-- C2 (amended): every successful (status 200) response carries exactly
the three wildcard CORS headers; no `Content-Type` header is set,
whether or not the served file's extension is `.json`. -/
theorem success_response_headers (fs : FsReader) (path contents : String)
    (h : fs path = Except.ok contents) :
    (response_from_file fs path).status = 200 ∧
    (response_from_file fs path).body = contents ∧
    (response_from_file fs path).headers = corsHeaders ∧
    ∀ v : String, ("content-type", v) ∉ (response_from_file fs path).headers := by
  have hr : response_from_file fs path
      = { status := 200, headers := corsHeaders, body := contents } := by
    simp [response_from_file, h, Response.new, set_default_headers, headerInsert, corsHeaders]
  rw [hr]
  refine ⟨rfl, rfl, rfl, ?_⟩
  intro v
  simp [corsHeaders]

/-- Witness for C2 (amended) at the stub filesystem's readable file. -/
theorem success_response_headers_witness :
    (response_from_file fsStub "data.json").status = 200 ∧
    (response_from_file fsStub "data.json").body = "file contents" ∧
    (response_from_file fsStub "data.json").headers = corsHeaders :=
  ⟨(success_response_headers fsStub "data.json" "file contents" rfl).1,
   (success_response_headers fsStub "data.json" "file contents" rfl).2.1,
   (success_response_headers fsStub "data.json" "file contents" rfl).2.2.1⟩

/-- C7: the assembler maps a `NotFound` error to status 404 and any other
I/O error to status 500, with body equal to the error's message and the
default headers applied regardless of status; a failed file read falls
through to the same error branch with the read error. -/
theorem error_response_mapping :
    (∀ e : IoError, e.kind = ErrorKind.notFound →
        response_from_error e = { status := 404, headers := corsHeaders, body := e.msg }) ∧
    (∀ e : IoError, e.kind ≠ ErrorKind.notFound →
        response_from_error e = { status := 500, headers := corsHeaders, body := e.msg }) ∧
    (∀ (fs : FsReader) (path : String) (e : IoError), fs path = Except.error e →
        response_from_file fs path = response_from_error e) := by
  refine ⟨?_, ?_, ?_⟩
  · intro e he
    simp [response_from_error, he, Response.new, set_default_headers, headerInsert, corsHeaders]
  · intro e he
    cases hk : e.kind with
    | notFound => exact absurd hk he
    | other =>
        simp [response_from_error, hk, Response.new, set_default_headers, headerInsert,
          corsHeaders]
  · intro fs path e h
    simp [response_from_file, h]

/-- Witness for C7: a 404, a 500, and a read-failure fall-through. -/
theorem error_response_mapping_witness :
    response_from_error ⟨ErrorKind.notFound, "No files available"⟩
      = { status := 404, headers := corsHeaders, body := "No files available" } ∧
    response_from_error ⟨ErrorKind.other, "permission denied"⟩
      = { status := 500, headers := corsHeaders, body := "permission denied" } ∧
    response_from_file fsStub "missing.json"
      = response_from_error ⟨ErrorKind.notFound, "No such file"⟩ :=
  ⟨error_response_mapping.1 ⟨ErrorKind.notFound, "No files available"⟩ rfl,
   error_response_mapping.2.1 ⟨ErrorKind.other, "permission denied"⟩ (by decide),
   error_response_mapping.2.2 fsStub "missing.json" ⟨ErrorKind.notFound, "No such file"⟩ rfl⟩

/-! ## Claim theorems: the orchestrator and the mutation chain -/

/-- C8: mutations are applied strictly in registration order (the chain
over a concatenation is the sequential composition), and when a mutation
fails the orchestrator returns a transport-level error carrying that
failure — no subsequent mutation runs, whatever follows the failing one
in the registration list. -/
theorem mutation_order_short_circuit :
    (∀ (l1 l2 : List Mutation) (out : MapperOutput),
        applyMutations (l1 ++ l2) out
          = Except.bind (applyMutations l1 out) (applyMutations l2)) ∧
    (∀ (svc : FileMapperService) (req : RequestData) (dir : String)
        (pre post : List Mutation) (m : Mutation) (out' : MapperOutput) (e : IoError),
        svc.pick_directory req = Except.ok dir →
        svc.mutations = pre ++ m :: post →
        applyMutations pre (MapperOutput.new svc.fs req (svc.picker_pick_file dir req))
          = Except.ok out' →
        m out' = Except.error e →
        FileMapperService.call svc req = Except.error e) := by
  have happ : ∀ (l1 l2 : List Mutation) (out : MapperOutput),
      applyMutations (l1 ++ l2) out
        = Except.bind (applyMutations l1 out) (applyMutations l2) := by
    intro l1
    induction l1 with
    | nil => intro l2 out; rfl
    | cons m rest ih =>
        intro l2 out
        simp only [List.cons_append, applyMutations]
        cases m out with
        | ok out' => exact ih l2 out'
        | error e => rfl
  refine ⟨happ, ?_⟩
  intro svc req dir pre post m out' e hdir hmuts hpre hm
  simp only [FileMapperService.call, hdir, hmuts, happ, hpre]
  simp only [Except.bind, applyMutations, hm]

/-- Witness for C8: the failing first mutation of `svcMutFail` aborts the
request before the status-rewriting second mutation. -/
theorem mutation_order_short_circuit_witness :
    FileMapperService.call svcMutFail reqStub
      = Except.error ⟨ErrorKind.other, "mutation failed"⟩ :=
  mutation_order_short_circuit.2 svcMutFail reqStub "responses/widgets"
    [] [mutationSetCreated] mutationFail
    (MapperOutput.new svcMutFail.fs reqStub
      (svcMutFail.picker_pick_file "responses/widgets" reqStub))
    ⟨ErrorKind.other, "mutation failed"⟩ rfl rfl rfl rfl

/-- C9: a directory-resolver failure short-circuits to a transport error
without consulting the file picker (the outcome is the same for every
file picker), while file-picker failures and read failures are converted
into well-formed error HTTP responses (status 404 or 500). -/
theorem directory_failure_short_circuit :
    (∀ (svc : FileMapperService) (req : RequestData) (e : IoError),
        svc.pick_directory req = Except.error e →
        FileMapperService.call svc req = Except.error e ∧
        ∀ pf : String → RequestData → Except IoError String,
          FileMapperService.call { svc with picker_pick_file := pf } req
            = Except.error e) ∧
    (∀ (svc : FileMapperService) (req : RequestData) (dir : String) (e : IoError),
        svc.pick_directory req = Except.ok dir →
        svc.picker_pick_file dir req = Except.error e →
        svc.mutations = [] →
        FileMapperService.call svc req = Except.ok (response_from_error e) ∧
        ((response_from_error e).status = 404 ∨ (response_from_error e).status = 500)) ∧
    (∀ (svc : FileMapperService) (req : RequestData) (dir path : String) (e : IoError),
        svc.pick_directory req = Except.ok dir →
        svc.picker_pick_file dir req = Except.ok path →
        svc.fs path = Except.error e →
        svc.mutations = [] →
        FileMapperService.call svc req = Except.ok (response_from_error e)) := by
  have hstatus : ∀ e : IoError,
      (response_from_error e).status = 404 ∨ (response_from_error e).status = 500 := by
    intro e
    cases e with
    | mk kind msg =>
        cases kind with
        | notFound => left; rfl
        | other => right; rfl
  refine ⟨?_, ?_, ?_⟩
  · intro svc req e hdir
    constructor
    · simp only [FileMapperService.call, hdir]
    · intro pf
      simp only [FileMapperService.call, hdir]
  · intro svc req dir e hdir hpick hmut
    refine ⟨?_, hstatus e⟩
    simp only [FileMapperService.call, hdir, hpick, hmut, applyMutations,
      MapperOutput.new]
  · intro svc req dir path e hdir hpick hread hmut
    simp only [FileMapperService.call, hdir, hpick, hmut, applyMutations,
      MapperOutput.new, response_from_file, hread]

/-- Witness for C9: the three routings at concrete services. -/
theorem directory_failure_short_circuit_witness :
    FileMapperService.call svcDirFail reqStub
      = Except.error ⟨ErrorKind.notFound, "no directory"⟩ ∧
    FileMapperService.call svcPickFail reqStub
      = Except.ok (response_from_error ⟨ErrorKind.notFound, "No files available"⟩) ∧
    FileMapperService.call svcReadFail reqStub
      = Except.ok (response_from_error ⟨ErrorKind.notFound, "No such file"⟩) :=
  ⟨(directory_failure_short_circuit.1 svcDirFail reqStub
      ⟨ErrorKind.notFound, "no directory"⟩ rfl).1,
   (directory_failure_short_circuit.2.1 svcPickFail reqStub "responses/widgets"
      ⟨ErrorKind.notFound, "No files available"⟩ rfl rfl rfl).1,
   directory_failure_short_circuit.2.2 svcReadFail reqStub "responses/widgets"
      "missing.json" ⟨ErrorKind.notFound, "No such file"⟩ rfl rfl rfl rfl⟩

end Counterfeit
